import Mathlib

/-!
Shallow embedding of `src/rest_rpc/client/detail/async_sub_session.hpp`:
the subscription session state machine (`sub_session`) and the
subscription registry (`sub_manager`).

Each asynchronous completion handler of `sub_session` is embedded as a
pure function from the session state (plus the global hooks and the
completion's error code) to the new session state together with the list
of observable actions it performs: asynchronous reads/writes/timer waits
it schedules, user callbacks it invokes, and invocations of the
process-wide failure hook.
-/

set_option autoImplicit false

namespace RestRpc

/-- Error kinds used by this translation unit (`error_code::BADCONNECTION`
for transport failures, `error_code::UNKNOWN` for the duplicate-subscribe
throw); the `error_code` enum itself is declared in `forward.hpp`. -/
inductive error_code where
  | BADCONNECTION
  | UNKNOWN
deriving DecidableEq, Repr

/-- `timax::rpc::exception`: an error kind together with a human-readable
message (declared in `forward.hpp`; field content as used by this file). -/
structure exception where
  code : error_code
  message : String
deriving DecidableEq, Repr

/-- `head_t` (the spec's WireHeader): `{ length : uint32, resultCode : uint32 }`.
Declared in `forward.hpp`; fields `len` and `code` as used by this file. -/
structure head_t where
  len : Nat
  code : Nat
deriving DecidableEq, Repr

/-- `send_head_ = { 0 }`: the zero-initialised header. -/
def head_zero : head_t := ⟨0, 0⟩

/-- Modelled from the spec: the reply result enum is `{OK = 0, FAIL = nonzero}`
(`result_code` is declared outside this file). -/
def result_code_OK : Nat := 0

/-- Names of the completion handlers a scheduled operation continues into. -/
inductive Cont where
  | handle_request_sub
  | handle_response_sub_head
  | handle_response_sub_body
  | handle_sub_head
  | handle_sub_body
  | handle_heartbeat
  | handle_send_hb
deriving DecidableEq, Repr

/-- Observable actions a completion handler performs. -/
inductive Action where
  /-- `async_write` of the subscription request (header + procedure name + topic). -/
  | async_write_request (len : Nat) (k : Cont)
  /-- `async_read` of one `head_t` into `recv_head_`. -/
  | async_read_head (k : Cont)
  /-- `async_read` of exactly `n` body bytes into `response_`. -/
  | async_read_body (n : Nat) (k : Cont)
  /-- `async_write` of one `head_t`. -/
  | async_write_head (h : head_t) (k : Cont)
  /-- `hb_timer_.expires_from_now(…s); hb_timer_.async_wait(…)`. -/
  | timer_wait (seconds : Nat) (k : Cont)
  /-- Invocation of the user message callback `function_` with the raw bytes. -/
  | call_function (data : List Nat)
  /-- Invocation of the user error callback `error_` with an exception. -/
  | call_error (e : exception)
  /-- Invocation of the process-wide failure hook `get_on_error()` with this session. -/
  | invoke_on_error_hook
deriving DecidableEq, Repr

/-- The state of one `sub_session` (bodies as byte lists; the callbacks
`function_` and `error_` are tracked by whether they were supplied). -/
structure sub_session where
  running_flag : Bool
  socket_open : Bool
  send_head : head_t
  recv_head : head_t
  topic : List Nat
  response : List Nat
  has_function : Bool
  has_error : Bool
deriving DecidableEq, Repr

/-- The process-wide hooks `sub_session::get_on_error()` and
`sub_session::get_deserialize_exception()`: each is an optional function
slot; the failure hook's state content is opaque to the session, so only
its presence is tracked. -/
structure Hooks where
  on_error_set : Bool
  deserialize : Option (List Nat → exception)

/-- `std::vector::resize`: keep the first `n` elements, zero-fill up to `n`. -/
def vector_resize (l : List Nat) (n : Nat) : List Nat :=
  l.take n ++ List.replicate (n - l.length) 0

/-- `sub_session::on_error(exception const&)`: invoke the user error
callback if supplied, then the process-wide failure hook if installed. -/
def on_error_with (hooks : Hooks) (s : sub_session) (e : exception) : List Action :=
  (if s.has_error then [Action.call_error e] else [])
    ++ (if hooks.on_error_set then [Action.invoke_on_error_hook] else [])

/-- `sub_session::on_error()`: deserialize `response_` into an exception via
the configured hook and feed it to the error path; nothing happens when the
deserialization hook is not installed. -/
def on_error_deser (hooks : Hooks) (s : sub_session) : List Action :=
  match hooks.deserialize with
  | some d => on_error_with hooks s (d s.response)
  | none => []

/-- `sub_session::setup_heartbeat_timer`: arm the heartbeat timer for 15s
with `handle_heartbeat` as the continuation. -/
def setup_heartbeat_timer : List Action :=
  [Action.timer_wait 15 Cont.handle_heartbeat]

/-- `sub_session::recv_sub_head`: read one header with `handle_sub_head`
as the continuation. -/
def recv_sub_head : List Action :=
  [Action.async_read_head Cont.handle_sub_head]

/-- `sub_session::begin_sub_procedure`: start the heartbeat timer, then
issue the first steady-state header read. -/
def begin_sub_procedure : List Action :=
  setup_heartbeat_timer ++ recv_sub_head

/-- `sub_session::stop`: store `false` into the running flag. -/
def stop (s : sub_session) : sub_session :=
  { s with running_flag := false }

/-- A boost completion status: `none` is success; `some msg` is an error
whose `message()` is `msg`. -/
abbrev boost_error := Option String

/-- `sub_session::handle_request_sub`: guard, then on success read the
handshake ack header; on failure enter the error path with `BADCONNECTION`. -/
def handle_request_sub (hooks : Hooks) (s : sub_session) (err : boost_error) :
    sub_session × List Action :=
  if !(s.socket_open && s.running_flag) then (s, [])
  else
    match err with
    | none => (s, [Action.async_read_head Cont.handle_response_sub_head])
    | some msg => (s, on_error_with hooks s ⟨error_code.BADCONNECTION, msg⟩)

/-- `sub_session::handle_response_sub_head`: guard, then on success read the
ack body when `recv_head_.len > 0` (and do nothing at all when it is 0);
on failure enter the error path with `BADCONNECTION`. -/
def handle_response_sub_head (hooks : Hooks) (s : sub_session) (err : boost_error) :
    sub_session × List Action :=
  if !(s.socket_open && s.running_flag) then (s, [])
  else
    match err with
    | none =>
      if 0 < s.recv_head.len then
        ({ s with response := vector_resize s.response s.recv_head.len },
          [Action.async_read_body s.recv_head.len Cont.handle_response_sub_body])
      else (s, [])
    | some msg => (s, on_error_with hooks s ⟨error_code.BADCONNECTION, msg⟩)

/-- `sub_session::handle_response_sub_body`: guard, then on success either
enter the steady state (`result_code::OK`) or deserialize the body as an
exception and enter the error path; on failure enter the error path with
`BADCONNECTION`. -/
def handle_response_sub_body (hooks : Hooks) (s : sub_session) (err : boost_error) :
    sub_session × List Action :=
  if !(s.socket_open && s.running_flag) then (s, [])
  else
    match err with
    | none =>
      if s.recv_head.code = result_code_OK then (s, begin_sub_procedure)
      else (s, on_error_deser hooks s)
    | some msg => (s, on_error_with hooks s ⟨error_code.BADCONNECTION, msg⟩)

/-- `sub_session::handle_sub_head`: guard, then on success read a message
body when `recv_head_.len > 0`, or treat the frame as a heartbeat ack and
re-issue the header read when it is 0; on failure enter the error path. -/
def handle_sub_head (hooks : Hooks) (s : sub_session) (err : boost_error) :
    sub_session × List Action :=
  if !(s.socket_open && s.running_flag) then (s, [])
  else
    match err with
    | none =>
      if 0 < s.recv_head.len then
        ({ s with response := vector_resize s.response s.recv_head.len },
          [Action.async_read_body s.recv_head.len Cont.handle_sub_body])
      else (s, recv_sub_head)
    | some msg => (s, on_error_with hooks s ⟨error_code.BADCONNECTION, msg⟩)

/-- `sub_session::handle_sub_body`: guard, then on success invoke the user
message callback (if supplied) with `response_` and re-issue the header
read; on failure enter the error path with `BADCONNECTION`. -/
def handle_sub_body (hooks : Hooks) (s : sub_session) (err : boost_error) :
    sub_session × List Action :=
  if !(s.socket_open && s.running_flag) then (s, [])
  else
    match err with
    | none =>
      (s, (if s.has_function then [Action.call_function s.response] else [])
        ++ recv_sub_head)
    | some msg => (s, on_error_with hooks s ⟨error_code.BADCONNECTION, msg⟩)

/-- `sub_session::handle_heartbeat`: guard, then when the timer completed
without error, zero `send_head_`, write it (a length-0 ping) and re-arm the
timer; a timer error falls through silently (no `else` branch in the source). -/
def handle_heartbeat (_hooks : Hooks) (s : sub_session) (err : boost_error) :
    sub_session × List Action :=
  if !(s.socket_open && s.running_flag) then (s, [])
  else
    match err with
    | none =>
      ({ s with send_head := head_zero },
        [Action.async_write_head head_zero Cont.handle_send_hb] ++ setup_heartbeat_timer)
    | some _ => (s, [])

/-- `sub_session::handle_send_hb`: guard, then enter the error path with
`BADCONNECTION` only when the ping write failed. -/
def handle_send_hb (hooks : Hooks) (s : sub_session) (err : boost_error) :
    sub_session × List Action :=
  if !(s.socket_open && s.running_flag) then (s, [])
  else
    match err with
    | none => (s, [])
    | some msg => (s, on_error_with hooks s ⟨error_code.BADCONNECTION, msg⟩)

/-- `sub_session::request_sub`: when running, build the request message
(`send_head_.len = name.size + 1 + topic.size`, then header + NUL-terminated
procedure name + topic payload) and write it with `handle_request_sub` as
the continuation; `name_len` is `sub_topic.name().size()` (a protocol
constant declared outside this file). -/
def request_sub (name_len : Nat) (s : sub_session) : sub_session × List Action :=
  if s.running_flag then
    ({ s with send_head := ⟨name_len + s.topic.length + 1, s.send_head.code⟩ },
      [Action.async_write_request (name_len + s.topic.length + 1) Cont.handle_request_sub])
  else (s, [])

/-- The success continuation `sub_session::start` registers with
`connection_.start`: `request_sub()`. -/
def start_on_connected (name_len : Nat) (s : sub_session) : sub_session × List Action :=
  request_sub name_len s

/-- The failure continuation `sub_session::start` registers with
`connection_.start`: it merely calls `stop()`. -/
def start_on_connect_failed (s : sub_session) : sub_session × List Action :=
  (stop s, [])

/-- One wire frame: a header followed by `head.len` body bytes. -/
structure frame where
  head : head_t
  body : List Nat
deriving DecidableEq, Repr

/-- Completion of the handshake ack exchange: the pending header read
fills `recv_head_` and runs `handle_response_sub_head`; if that handler
scheduled the ack body read, the read fills `response_` with the reply
body and runs `handle_response_sub_body`. -/
def handshake_reply (hooks : Hooks) (s : sub_session) (h : head_t) (body : List Nat) :
    sub_session × List Action :=
  let s1 := { s with recv_head := h }
  let r1 := handle_response_sub_head hooks s1 none
  if Action.async_read_body h.len Cont.handle_response_sub_body ∈ r1.2 then
    let s3 := { r1.1 with response := body }
    let r2 := handle_response_sub_body hooks s3 none
    (r2.1, r1.2 ++ r2.2)
  else r1

/-- Error-free delivery of one steady-state frame: the pending header read
fills `recv_head_` and runs `handle_sub_head`; if that handler scheduled a
body read, the read fills `response_` with the frame body and runs
`handle_sub_body`. -/
def deliver_one (hooks : Hooks) (s : sub_session) (f : frame) :
    sub_session × List Action :=
  let s1 := { s with recv_head := f.head }
  let r1 := handle_sub_head hooks s1 none
  if Action.async_read_body f.head.len Cont.handle_sub_body ∈ r1.2 then
    let s3 := { r1.1 with response := f.body }
    let r2 := handle_sub_body hooks s3 none
    (r2.1, r1.2 ++ r2.2)
  else r1

/-- Error-free back-to-back delivery of a list of frames: each frame is
delivered to the session's receive chain, and the next frame is consumed
only if the chain re-issued the steady-state header read. -/
def deliver_frames (hooks : Hooks) : sub_session → List frame → sub_session × List Action
  | s, [] => (s, [])
  | s, f :: fs =>
    let r1 := deliver_one hooks s f
    if Action.async_read_head Cont.handle_sub_head ∈ r1.2 then
      let r2 := deliver_frames hooks r1.1 fs
      (r2.1, r1.2 ++ r2.2)
    else r1

/-- The payloads handed to the user message callback, in order. -/
def messages_of (acts : List Action) : List (List Nat) :=
  acts.filterMap fun a =>
    match a with
    | Action.call_function d => some d
    | _ => none

/-- How many steady-state header reads a trace issues. -/
def head_reads_of (acts : List Action) : Nat :=
  acts.countP fun a =>
    match a with
    | Action.async_read_head _ => true
    | _ => false

/-- Which actions schedule transport or timer work (reads, writes, waits),
as opposed to invoking callbacks or hooks. -/
def is_io_action : Action → Bool
  | Action.async_write_request _ _ => true
  | Action.async_read_head _ => true
  | Action.async_read_body _ _ => true
  | Action.async_write_head _ _ => true
  | Action.timer_wait _ _ => true
  | Action.call_function _ => false
  | Action.call_error _ => false
  | Action.invoke_on_error_hook => false

/-- Endpoints (`tcp::endpoint`), kept abstract as ordered keys. -/
abbrev endpoint_t := Nat

/-- What the registry needs from a `sub_session_ptr`: its identity and the
key pair `(get_endpoint(), get_topic())`. -/
structure SessionRef where
  endpoint : endpoint_t
  topic : String
  sid : Nat
deriving DecidableEq, Repr

/-- `topics_map_t = std::map<std::string, sub_session_ptr>`, embedded as an
association list with unique keys. -/
abbrev topics_map_t := List (String × SessionRef)

/-- `endpoint_map_t = std::map<tcp::endpoint, topics_map_t>`. -/
abbrev endpoint_map_t := List (endpoint_t × topics_map_t)

/-- `std::map::find`. -/
def lookupA {α β : Type} [DecidableEq α] : List (α × β) → α → Option β
  | [], _ => none
  | p :: ps, k => if p.1 = k then some p.2 else lookupA ps k

/-- `std::map::erase` of the entry found for a key (first occurrence). -/
def eraseA {α β : Type} [DecidableEq α] : List (α × β) → α → List (α × β)
  | [], _ => []
  | p :: ps, k => if p.1 = k then ps else p :: eraseA ps k

/-- In-place mutation of the mapped value reached through a `find` iterator. -/
def updateA {α β : Type} [DecidableEq α] (l : List (α × β)) (k : α) (v : β) :
    List (α × β) :=
  l.map fun p => if p.1 = k then (k, v) else p

/-- Lookup of the session registered for an (endpoint, topic) pair. -/
def lookupTopic (reg : endpoint_map_t) (ep : endpoint_t) (t : String) :
    Option SessionRef :=
  match lookupA reg ep with
  | none => none
  | some b => lookupA b t

/-- How many sessions the registry holds for an (endpoint, topic) pair. -/
def countPair (reg : endpoint_map_t) (ep : endpoint_t) (t : String) : Nat :=
  match lookupA reg ep with
  | none => 0
  | some b => b.countP fun p => p.1 == t

/-- The `std::map` representation invariant of the embedding: keys are
unique at both levels, and (as maintained by `sub_manager`) every endpoint
bucket is non-empty. -/
def WFreg (reg : endpoint_map_t) : Prop :=
  (reg.map Prod.fst).Nodup ∧ ∀ p ∈ reg, (p.2.map Prod.fst).Nodup ∧ p.2 ≠ []

instance (reg : endpoint_map_t) : Decidable (WFreg reg) := by
  unfold WFreg
  infer_instance

/-- The inner step of `sub_manager::remove`: erase the topic entry from the
endpoint's bucket if present (no-op when absent). -/
def remove_in_bucket (bucket : topics_map_t) (t : String) : topics_map_t :=
  match lookupA bucket t with
  | some _ => eraseA bucket t
  | none => bucket

/-- `sub_manager::remove`: look up the session's endpoint bucket; if found,
erase the topic entry if present, then erase the whole endpoint bucket if
it became empty. -/
def remove (reg : endpoint_map_t) (s : SessionRef) : endpoint_map_t :=
  match lookupA reg s.endpoint with
  | none => reg
  | some bucket =>
    if (remove_in_bucket bucket s.topic).isEmpty then eraseA reg s.endpoint
    else updateA reg s.endpoint (remove_in_bucket bucket s.topic)

/-- The inner step of `sub_manager::sub_impl` once the endpoint bucket was
found: throw if the topic is already registered, else insert and start. -/
def sub_impl_in_bucket (reg : endpoint_map_t) (endpoint : endpoint_t) (topic : String)
    (session : SessionRef) (bucket : topics_map_t) :
    Except exception (endpoint_map_t × Bool) :=
  match lookupA bucket topic with
  | some _ => Except.error ⟨error_code.UNKNOWN, "Sub topic already existed!"⟩
  | none => Except.ok (updateA reg endpoint (bucket ++ [(topic, session)]), true)

/-- `sub_manager::sub_impl`: under the lock, register the session for
`(endpoint, topic)` and call `start()` on it (the returned flag records
that `start()` ran), or throw when the pair is already registered. -/
def sub_impl (reg : endpoint_map_t) (endpoint : endpoint_t) (topic : String)
    (session : SessionRef) : Except exception (endpoint_map_t × Bool) :=
  match lookupA reg endpoint with
  | none =>
    Except.ok (reg ++ [(endpoint, [(topic, session)])], true)
  | some bucket => sub_impl_in_bucket reg endpoint topic session bucket

/-- The failure hook the `sub_manager` constructor installs into
`sub_session::get_on_error()`: remove the failed session from the registry. -/
def manager_on_error_hook (reg : endpoint_map_t) (s : SessionRef) : endpoint_map_t :=
  remove reg s

/-- A concrete deserialization hook (used by witnesses). -/
def dWitness : List Nat → exception :=
  fun _ => ⟨error_code.UNKNOWN, "deserialized"⟩

/-- Concrete hooks with both slots installed (used by witnesses). -/
def hooksAll : Hooks :=
  ⟨true, some dWitness⟩

/-- A concrete registry holding two topics on one endpoint and one topic on
another (used by witnesses). -/
def regW : endpoint_map_t :=
  [(1, [("alpha", ⟨1, "alpha", 10⟩), ("beta", ⟨1, "beta", 11⟩)]),
   (2, [("alpha", ⟨2, "alpha", 20⟩)])]

/-- A concrete session reference registered in `regW` (used by witnesses). -/
def srefW : SessionRef := ⟨1, "alpha", 10⟩

/-- A concrete stopped session (used by witnesses). -/
def sessStopped : sub_session :=
  ⟨false, true, head_zero, ⟨5, 0⟩, [1, 2], [9, 9, 9], true, true⟩

/-- A concrete live session: connected, running, both callbacks supplied
(used by witnesses and counterexamples). -/
def sessLive : sub_session :=
  ⟨true, true, head_zero, head_zero, [1, 2], [], true, true⟩

section AssocLemmas

variable {α β : Type} [DecidableEq α]

theorem lookupA_eq_none {l : List (α × β)} {k : α} :
    lookupA l k = none ↔ ∀ p ∈ l, p.1 ≠ k := by
  induction l with
  | nil => simp [lookupA]
  | cons p ps ih =>
    by_cases hpk : p.1 = k <;> simp [lookupA, hpk, ih]

theorem lookupA_mem {l : List (α × β)} {k : α} {v : β}
    (h : lookupA l k = some v) : (k, v) ∈ l := by
  induction l with
  | nil => simp [lookupA] at h
  | cons p ps ih =>
    by_cases hpk : p.1 = k
    · simp only [lookupA, if_pos hpk, Option.some.injEq] at h
      have hp : p = (k, v) := Prod.ext hpk h
      rw [← hp]
      exact List.mem_cons_self p ps
    · simp only [lookupA, if_neg hpk] at h
      exact List.mem_cons_of_mem _ (ih h)

theorem eraseA_of_lookup_none {l : List (α × β)} {k : α}
    (h : lookupA l k = none) : eraseA l k = l := by
  induction l with
  | nil => rfl
  | cons p ps ih =>
    by_cases hpk : p.1 = k
    · simp only [lookupA, if_pos hpk] at h
      exact Option.noConfusion h
    · simp only [lookupA, if_neg hpk] at h
      simp only [eraseA, if_neg hpk, ih h]

theorem lookupA_eraseA_self {l : List (α × β)} {k : α}
    (h : (l.map Prod.fst).Nodup) : lookupA (eraseA l k) k = none := by
  induction l with
  | nil => rfl
  | cons p ps ih =>
    rw [List.map_cons, List.nodup_cons] at h
    by_cases hpk : p.1 = k
    · simp only [eraseA, if_pos hpk]
      rw [lookupA_eq_none]
      intro q hq hqk
      exact h.1 (by rw [hpk, ← hqk]; exact List.mem_map_of_mem Prod.fst hq)
    · simp only [eraseA, if_neg hpk, lookupA]
      exact ih h.2

theorem lookupA_eraseA_ne {l : List (α × β)} {k k' : α} (h : k' ≠ k) :
    lookupA (eraseA l k) k' = lookupA l k' := by
  induction l with
  | nil => rfl
  | cons p ps ih =>
    by_cases hpk : p.1 = k
    · have hpk' : p.1 ≠ k' := fun hc => h (hc ▸ hpk ▸ rfl)
      simp only [eraseA, if_pos hpk, lookupA, if_neg hpk']
    · simp only [eraseA, if_neg hpk, lookupA]
      by_cases hpk' : p.1 = k'
      · rw [if_pos hpk', if_pos hpk']
      · rw [if_neg hpk', if_neg hpk', ih]

theorem lookupA_updateA_self {l : List (α × β)} {k : α} {v w : β}
    (h : lookupA l k = some w) : lookupA (updateA l k v) k = some v := by
  induction l with
  | nil => simp [lookupA] at h
  | cons p ps ih =>
    show lookupA ((if p.1 = k then (k, v) else p) :: updateA ps k v) k = some v
    by_cases hpk : p.1 = k
    · rw [if_pos hpk]
      simp [lookupA]
    · simp only [lookupA, if_neg hpk] at h
      rw [if_neg hpk]
      simp only [lookupA, if_neg hpk]
      exact ih h

theorem lookupA_updateA_ne {l : List (α × β)} {k k' : α} {v : β} (h : k' ≠ k) :
    lookupA (updateA l k v) k' = lookupA l k' := by
  induction l with
  | nil => rfl
  | cons p ps ih =>
    show lookupA ((if p.1 = k then (k, v) else p) :: updateA ps k v) k' = _
    by_cases hpk : p.1 = k
    · have hkk' : k ≠ k' := fun hc => h hc.symm
      have hpk' : p.1 ≠ k' := hpk ▸ hkk'
      rw [if_pos hpk]
      simp only [lookupA, if_neg hkk', if_neg hpk']
      exact ih
    · rw [if_neg hpk]
      simp only [lookupA]
      by_cases hpk' : p.1 = k'
      · rw [if_pos hpk', if_pos hpk']
      · rw [if_neg hpk', if_neg hpk', ih]

theorem updateA_of_lookup_none {l : List (α × β)} {k : α} {v : β}
    (h : lookupA l k = none) : updateA l k v = l := by
  induction l with
  | nil => rfl
  | cons p ps ih =>
    by_cases hpk : p.1 = k
    · simp only [lookupA, if_pos hpk] at h
      exact Option.noConfusion h
    · simp only [lookupA, if_neg hpk] at h
      show (if p.1 = k then (k, v) else p) :: updateA ps k v = p :: ps
      rw [if_neg hpk, ih h]

theorem updateA_self_eq {l : List (α × β)} {k : α} {v : β}
    (hl : lookupA l k = some v) (h : (l.map Prod.fst).Nodup) :
    updateA l k v = l := by
  induction l with
  | nil => rfl
  | cons p ps ih =>
    rw [List.map_cons, List.nodup_cons] at h
    by_cases hpk : p.1 = k
    · simp only [lookupA, if_pos hpk, Option.some.injEq] at hl
      have hps : lookupA ps k = none := by
        rw [lookupA_eq_none]
        intro q hq hqk
        exact h.1 (by rw [hpk, ← hqk]; exact List.mem_map_of_mem Prod.fst hq)
      show (if p.1 = k then (k, v) else p) :: updateA ps k v = p :: ps
      rw [if_pos hpk, updateA_of_lookup_none hps, ← hl, ← hpk]
    · simp only [lookupA, if_neg hpk] at hl
      show (if p.1 = k then (k, v) else p) :: updateA ps k v = p :: ps
      rw [if_neg hpk, ih hl h.2]

theorem eraseA_eq_nil_iff {l : List (α × β)} {k : α} :
    eraseA l k = [] ↔ l = [] ∨ ∃ v, l = [(k, v)] := by
  cases l with
  | nil => simp [eraseA]
  | cons p ps =>
    by_cases hpk : p.1 = k
    · simp only [eraseA, if_pos hpk]
      constructor
      · intro h
        subst h
        exact Or.inr ⟨p.2, by rw [← hpk]⟩
      · rintro (h | ⟨v, h⟩)
        · exact absurd h (List.cons_ne_nil p ps)
        · rw [List.cons.injEq] at h
          exact h.2
    · simp only [eraseA, if_neg hpk]
      constructor
      · intro h
        exact absurd h (List.cons_ne_nil _ _)
      · rintro (h | ⟨v, h⟩)
        · exact absurd h (List.cons_ne_nil p ps)
        · rw [List.cons.injEq] at h
          exact absurd (congrArg Prod.fst h.1) hpk

theorem map_fst_updateA {l : List (α × β)} {k : α} {v : β} :
    (updateA l k v).map Prod.fst = l.map Prod.fst := by
  induction l with
  | nil => rfl
  | cons p ps ih =>
    show ((if p.1 = k then (k, v) else p) :: updateA ps k v).map Prod.fst = _
    by_cases hpk : p.1 = k
    · rw [if_pos hpk, List.map_cons, List.map_cons, ih, hpk]
    · rw [if_neg hpk, List.map_cons, List.map_cons, ih]

theorem countP_key_eq_one {l : List (α × β)} {k : α} {v : β}
    (h : (l.map Prod.fst).Nodup) (hl : lookupA l k = some v) :
    (l.countP fun p => p.1 == k) = 1 := by
  induction l with
  | nil => simp [lookupA] at hl
  | cons p ps ih =>
    rw [List.map_cons, List.nodup_cons] at h
    by_cases hpk : p.1 = k
    · have hzero : (ps.countP fun q => q.1 == k) = 0 := by
        rw [List.countP_eq_zero]
        intro q hq
        simp only [beq_iff_eq]
        intro hqk
        exact h.1 (by rw [hpk, ← hqk]; exact List.mem_map_of_mem Prod.fst hq)
      rw [List.countP_cons, hzero]
      simp [hpk]
    · simp only [lookupA, if_neg hpk] at hl
      rw [List.countP_cons]
      simp [hpk, ih h.2 hl]

end AssocLemmas

section RegistryLemmas

theorem isEmpty_eq_true_iff {γ : Type} {l : List γ} : l.isEmpty = true ↔ l = [] := by
  cases l <;> simp

theorem remove_lookup_none {reg : endpoint_map_t} {s : SessionRef}
    (hb : lookupA reg s.endpoint = none) : remove reg s = reg := by
  unfold remove
  rw [hb]

theorem remove_lookup_some {reg : endpoint_map_t} {s : SessionRef} {b : topics_map_t}
    (hb : lookupA reg s.endpoint = some b) :
    remove reg s =
      if (remove_in_bucket b s.topic).isEmpty then eraseA reg s.endpoint
      else updateA reg s.endpoint (remove_in_bucket b s.topic) := by
  unfold remove
  rw [hb]

theorem remove_in_bucket_none {b : topics_map_t} {t : String}
    (h : lookupA b t = none) : remove_in_bucket b t = b := by
  unfold remove_in_bucket
  rw [h]

theorem remove_in_bucket_some {b : topics_map_t} {t : String} {v : SessionRef}
    (h : lookupA b t = some v) : remove_in_bucket b t = eraseA b t := by
  unfold remove_in_bucket
  rw [h]

theorem sub_impl_lookup_none {reg : endpoint_map_t} {ep : endpoint_t} {t : String}
    {sess : SessionRef} (hb : lookupA reg ep = none) :
    sub_impl reg ep t sess = Except.ok (reg ++ [(ep, [(t, sess)])], true) := by
  unfold sub_impl
  rw [hb]

theorem sub_impl_lookup_some {reg : endpoint_map_t} {ep : endpoint_t} {t : String}
    {sess : SessionRef} {b : topics_map_t} (hb : lookupA reg ep = some b) :
    sub_impl reg ep t sess = sub_impl_in_bucket reg ep t sess b := by
  unfold sub_impl
  rw [hb]

theorem sub_impl_in_bucket_found {reg : endpoint_map_t} {ep : endpoint_t} {t : String}
    {sess v : SessionRef} {b : topics_map_t} (ht : lookupA b t = some v) :
    sub_impl_in_bucket reg ep t sess b =
      Except.error ⟨error_code.UNKNOWN, "Sub topic already existed!"⟩ := by
  unfold sub_impl_in_bucket
  rw [ht]

theorem lookupA_remove_in_bucket_self {b : topics_map_t} {t : String}
    (hn : (b.map Prod.fst).Nodup) :
    lookupA (remove_in_bucket b t) t = none := by
  unfold remove_in_bucket
  cases ht : lookupA b t with
  | none => exact ht
  | some v => exact lookupA_eraseA_self hn

/-- After `remove`, the registry holds no session for the removed
session's (endpoint, topic) pair. -/
theorem lookupTopic_remove_self (reg : endpoint_map_t) (s : SessionRef) (h : WFreg reg) :
    lookupTopic (remove reg s) s.endpoint s.topic = none := by
  cases hb : lookupA reg s.endpoint with
  | none =>
    rw [remove_lookup_none hb]
    unfold lookupTopic
    rw [hb]
  | some b =>
    have props := h.2 _ (lookupA_mem hb)
    rw [remove_lookup_some hb]
    by_cases hemp : (remove_in_bucket b s.topic).isEmpty = true
    · rw [if_pos hemp]
      unfold lookupTopic
      rw [lookupA_eraseA_self h.1]
    · rw [if_neg hemp]
      unfold lookupTopic
      rw [lookupA_updateA_self hb]
      exact lookupA_remove_in_bucket_self props.1

theorem remove_of_topic_absent {reg : endpoint_map_t} {s : SessionRef} {b : topics_map_t}
    (h : WFreg reg) (hb : lookupA reg s.endpoint = some b)
    (ht : lookupA b s.topic = none) : remove reg s = reg := by
  have props := h.2 _ (lookupA_mem hb)
  rw [remove_lookup_some hb, remove_in_bucket_none ht,
    if_neg (fun hc => props.2 (isEmpty_eq_true_iff.mp hc))]
  exact updateA_self_eq hb h.1

theorem remove_of_absent {reg : endpoint_map_t} {s : SessionRef} (h : WFreg reg)
    (habs : lookupTopic reg s.endpoint s.topic = none) : remove reg s = reg := by
  cases hb : lookupA reg s.endpoint with
  | none => exact remove_lookup_none hb
  | some b =>
    have ht : lookupA b s.topic = none := by
      unfold lookupTopic at habs
      rw [hb] at habs
      exact habs
    exact remove_of_topic_absent h hb ht

theorem remove_idem {reg : endpoint_map_t} {s : SessionRef} (h : WFreg reg) :
    remove (remove reg s) s = remove reg s := by
  cases hb : lookupA reg s.endpoint with
  | none =>
    rw [remove_lookup_none hb]
    exact remove_lookup_none hb
  | some b =>
    have props := h.2 _ (lookupA_mem hb)
    cases ht : lookupA b s.topic with
    | none =>
      rw [remove_of_topic_absent h hb ht]
      exact remove_of_topic_absent h hb ht
    | some v =>
      by_cases hemp : eraseA b s.topic = []
      · have h1 : remove reg s = eraseA reg s.endpoint := by
          rw [remove_lookup_some hb, remove_in_bucket_some ht,
            if_pos (isEmpty_eq_true_iff.mpr hemp)]
        have h2 : lookupA (remove reg s) s.endpoint = none := by
          rw [h1]
          exact lookupA_eraseA_self h.1
        exact remove_lookup_none h2
      · have h1 : remove reg s = updateA reg s.endpoint (eraseA b s.topic) := by
          rw [remove_lookup_some hb, remove_in_bucket_some ht,
            if_neg (fun hc => hemp (isEmpty_eq_true_iff.mp hc))]
        have hlook2 : lookupA (remove reg s) s.endpoint = some (eraseA b s.topic) := by
          rw [h1]
          exact lookupA_updateA_self hb
        have httop : lookupA (eraseA b s.topic) s.topic = none :=
          lookupA_eraseA_self props.1
        have hkeys : ((remove reg s).map Prod.fst).Nodup := by
          rw [h1, map_fst_updateA]
          exact h.1
        calc remove (remove reg s) s
            = updateA (remove reg s) s.endpoint (eraseA b s.topic) := by
              rw [remove_lookup_some hlook2, remove_in_bucket_none httop,
                if_neg (fun hc => hemp (isEmpty_eq_true_iff.mp hc))]
          _ = remove reg s := updateA_self_eq hlook2 hkeys

theorem lookupA_remove_other (reg : endpoint_map_t) (s : SessionRef) (ep : endpoint_t)
    (hne : ep ≠ s.endpoint) : lookupA (remove reg s) ep = lookupA reg ep := by
  cases hb : lookupA reg s.endpoint with
  | none => rw [remove_lookup_none hb]
  | some b =>
    rw [remove_lookup_some hb]
    by_cases hemp : (remove_in_bucket b s.topic).isEmpty = true
    · rw [if_pos hemp]
      exact lookupA_eraseA_ne hne
    · rw [if_neg hemp]
      exact lookupA_updateA_ne hne

theorem lookupTopic_remove_other (reg : endpoint_map_t) (s : SessionRef) (t : String)
    (h : WFreg reg) (hne : t ≠ s.topic) :
    lookupTopic (remove reg s) s.endpoint t = lookupTopic reg s.endpoint t := by
  cases hb : lookupA reg s.endpoint with
  | none => rw [remove_lookup_none hb]
  | some b =>
    have props := h.2 _ (lookupA_mem hb)
    cases ht : lookupA b s.topic with
    | none => rw [remove_of_topic_absent h hb ht]
    | some v =>
      by_cases hemp : eraseA b s.topic = []
      · have h1 : remove reg s = eraseA reg s.endpoint := by
          rw [remove_lookup_some hb, remove_in_bucket_some ht,
            if_pos (isEmpty_eq_true_iff.mpr hemp)]
        unfold lookupTopic
        rw [h1, lookupA_eraseA_self h.1, hb]
        rcases eraseA_eq_nil_iff.mp hemp with hnil | ⟨w, hsingle⟩
        · exact absurd hnil props.2
        · rw [hsingle]
          have hts : (s.topic, w).1 ≠ t := fun hc => hne hc.symm
          simp [lookupA, hts]
      · have h1 : remove reg s = updateA reg s.endpoint (eraseA b s.topic) := by
          rw [remove_lookup_some hb, remove_in_bucket_some ht,
            if_neg (fun hc => hemp (isEmpty_eq_true_iff.mp hc))]
        unfold lookupTopic
        rw [h1, lookupA_updateA_self hb, hb]
        exact lookupA_eraseA_ne hne

theorem remove_endpoint_gone_iff {reg : endpoint_map_t} {s : SessionRef}
    {b : topics_map_t} (h : WFreg reg) (hb : lookupA reg s.endpoint = some b) :
    (lookupA (remove reg s) s.endpoint = none ↔ ∀ p ∈ b, p.1 = s.topic) := by
  have props := h.2 _ (lookupA_mem hb)
  cases ht : lookupA b s.topic with
  | none =>
    rw [remove_of_topic_absent h hb ht, hb]
    constructor
    · intro hc
      exact Option.noConfusion hc
    · intro hall
      exfalso
      cases b with
      | nil => exact props.2 rfl
      | cons p ps =>
        have hp := hall p (List.mem_cons_self p ps)
        rw [lookupA, if_pos hp] at ht
        exact Option.noConfusion ht
  | some v =>
    by_cases hemp : eraseA b s.topic = []
    · have h1 : remove reg s = eraseA reg s.endpoint := by
        rw [remove_lookup_some hb, remove_in_bucket_some ht,
          if_pos (isEmpty_eq_true_iff.mpr hemp)]
      rw [h1]
      constructor
      · intro _
        rcases eraseA_eq_nil_iff.mp hemp with hnil | ⟨w, hsingle⟩
        · exact absurd hnil props.2
        · intro p hp
          rw [hsingle, List.mem_singleton] at hp
          rw [hp]
      · intro _
        exact lookupA_eraseA_self h.1
    · have h1 : remove reg s = updateA reg s.endpoint (eraseA b s.topic) := by
        rw [remove_lookup_some hb, remove_in_bucket_some ht,
          if_neg (fun hc => hemp (isEmpty_eq_true_iff.mp hc))]
      rw [h1, lookupA_updateA_self hb]
      constructor
      · intro hc
        exact Option.noConfusion hc
      · intro hall
        exfalso
        apply hemp
        cases b with
        | nil => exact absurd rfl props.2
        | cons p ps =>
          have hp1 := hall p (List.mem_cons_self p ps)
          cases ps with
          | nil => simp [eraseA, hp1]
          | cons q qs =>
            have hq1 := hall q (List.mem_cons_of_mem p (List.mem_cons_self q qs))
            have hn := props.1
            rw [List.map_cons, List.nodup_cons] at hn
            exact absurd
              (by
                rw [hp1, ← hq1]
                exact List.mem_map_of_mem Prod.fst (List.mem_cons_self q qs))
              hn.1

theorem on_error_with_no_io (hooks : Hooks) (s : sub_session) (e : exception) :
    ∀ a ∈ on_error_with hooks s e, is_io_action a = false := by
  intro a ha
  unfold on_error_with at ha
  rcases List.mem_append.mp ha with h1 | h2
  · by_cases hs : s.has_error = true
    · rw [if_pos hs, List.mem_singleton] at h1
      rw [h1]
      rfl
    · rw [if_neg hs] at h1
      exact absurd h1 (List.not_mem_nil a)
  · by_cases hh : hooks.on_error_set = true
    · rw [if_pos hh, List.mem_singleton] at h2
      rw [h2]
      rfl
    · rw [if_neg hh] at h2
      exact absurd h2 (List.not_mem_nil a)

end RegistryLemmas

/-- Claim C1 — when the running flag is false, every completion handler of
the session returns immediately: the session state is unchanged and no
action (in particular no user message callback and no user error callback)
is performed. -/
theorem stopped_handlers_are_noops (hooks : Hooks) (s : sub_session) (err : boost_error)
    (h : s.running_flag = false) :
    handle_request_sub hooks s err = (s, [])
    ∧ handle_response_sub_head hooks s err = (s, [])
    ∧ handle_response_sub_body hooks s err = (s, [])
    ∧ handle_sub_head hooks s err = (s, [])
    ∧ handle_sub_body hooks s err = (s, [])
    ∧ handle_heartbeat hooks s err = (s, [])
    ∧ handle_send_hb hooks s err = (s, []) := by
  refine ⟨?_, ?_, ?_, ?_, ?_, ?_, ?_⟩ <;>
    simp [handle_request_sub, handle_response_sub_head, handle_response_sub_body,
      handle_sub_head, handle_sub_body, handle_heartbeat, handle_send_hb, h]

/-- Witness for C1 at a concrete stopped session. -/
theorem stopped_handlers_are_noops_witness :
    sessStopped.running_flag = false
    ∧ handle_sub_body hooksAll sessStopped none = (sessStopped, []) :=
  ⟨rfl, (stopped_handlers_are_noops hooksAll sessStopped none rfl).2.2.2.2.1⟩

/-- Counterexample to claim C2 — a handshake ack with `resultCode = OK` and
`length = 0` does not take the session to Active: the handler schedules
nothing at all (no heartbeat timer, no steady-state read), so the session
stalls. -/
theorem handshake_len_zero_stalls :
    handshake_reply hooksAll sessLive ⟨0, result_code_OK⟩ []
      = ({ sessLive with recv_head := ⟨0, 0⟩ }, []) := rfl

/-- Claim C2 (amended) — a handshake ack whose header carries
`resultCode = OK` and `length > 0`, followed by its body, takes the session
to Active: after the ack body read completes, the session starts the
heartbeat timer and issues the first steady-state header read. (With
`length = 0` the handler schedules no continuation and the session stalls.) -/
theorem handshake_ok_enters_active (hooks : Hooks) (s : sub_session)
    (h : head_t) (body : List Nat)
    (hopen : s.socket_open = true) (hrun : s.running_flag = true)
    (hlen : 0 < h.len) (hcode : h.code = result_code_OK) :
    (handshake_reply hooks s h body).2 =
      [Action.async_read_body h.len Cont.handle_response_sub_body,
       Action.timer_wait 15 Cont.handle_heartbeat,
       Action.async_read_head Cont.handle_sub_head] := by
  obtain ⟨hl, hc⟩ := h
  simp only at hlen hcode
  subst hcode
  simp [handshake_reply, handle_response_sub_head, handle_response_sub_body,
    begin_sub_procedure, setup_heartbeat_timer, recv_sub_head, result_code_OK,
    hopen, hrun, hlen]

/-- Witness for the amended C2 at a concrete ack of length 4. -/
theorem handshake_ok_enters_active_witness :
    sessLive.socket_open = true ∧ sessLive.running_flag = true
    ∧ 0 < (4 : Nat) ∧ (result_code_OK = result_code_OK)
    ∧ (handshake_reply hooksAll sessLive ⟨4, result_code_OK⟩ [0, 1, 2, 3]).2 =
        [Action.async_read_body 4 Cont.handle_response_sub_body,
         Action.timer_wait 15 Cont.handle_heartbeat,
         Action.async_read_head Cont.handle_sub_head] :=
  ⟨rfl, rfl, by decide, rfl,
    handshake_ok_enters_active hooksAll sessLive ⟨4, result_code_OK⟩ [0, 1, 2, 3]
      rfl rfl (by decide) rfl⟩

/-- Claim C6 — an Active session receiving three back-to-back error-free
frames with lengths 37, 0 and 12 invokes the user message callback exactly
twice, first with the 37-byte body and then with the 12-byte body; the
length-0 frame is discarded as a heartbeat acknowledgement, and the
steady-state header read is re-issued after every frame (three times). -/
theorem three_frames_two_messages (hooks : Hooks) (s : sub_session)
    (b1 b2 : List Nat)
    (hopen : s.socket_open = true) (hrun : s.running_flag = true)
    (hfun : s.has_function = true)
    (h1 : b1.length = 37) (h2 : b2.length = 12) :
    messages_of (deliver_frames hooks s
        [⟨⟨37, 0⟩, b1⟩, ⟨⟨0, 0⟩, []⟩, ⟨⟨12, 0⟩, b2⟩]).2 = [b1, b2]
    ∧ head_reads_of (deliver_frames hooks s
        [⟨⟨37, 0⟩, b1⟩, ⟨⟨0, 0⟩, []⟩, ⟨⟨12, 0⟩, b2⟩]).2 = 3 := by
  obtain ⟨run, opn, sh, rh, tp, resp, hf, he⟩ := s
  simp only at hopen hrun hfun
  subst hopen hrun hfun
  constructor <;> rfl

/-- Witness for C6 at concrete 37- and 12-byte bodies. -/
theorem three_frames_two_messages_witness :
    sessLive.socket_open = true ∧ sessLive.running_flag = true
    ∧ sessLive.has_function = true
    ∧ (List.replicate 37 7).length = 37 ∧ (List.replicate 12 9).length = 12
    ∧ messages_of (deliver_frames hooksAll sessLive
        [⟨⟨37, 0⟩, List.replicate 37 7⟩, ⟨⟨0, 0⟩, []⟩,
         ⟨⟨12, 0⟩, List.replicate 12 9⟩]).2
        = [List.replicate 37 7, List.replicate 12 9] :=
  ⟨rfl, rfl, rfl, by decide, by decide,
    (three_frames_two_messages hooksAll sessLive
      (List.replicate 37 7) (List.replicate 12 9)
      rfl rfl rfl (by decide) (by decide)).1⟩

/-- Claim C9 — on an error-free heartbeat timer expiry: if the session is
not running or the socket is closed, nothing is written and the timer is
not re-armed; otherwise the session writes a zero-length header (the ping)
and re-arms the timer in the same step, before and independently of the
ping write's completion. -/
theorem heartbeat_fire_behaviour (hooks : Hooks) (s : sub_session) :
    (¬ (s.socket_open = true ∧ s.running_flag = true) →
      handle_heartbeat hooks s none = (s, []))
    ∧ (s.socket_open = true → s.running_flag = true →
        handle_heartbeat hooks s none =
          ({ s with send_head := head_zero },
           [Action.async_write_head ⟨0, 0⟩ Cont.handle_send_hb,
            Action.timer_wait 15 Cont.handle_heartbeat])) := by
  constructor
  · intro hno
    rcases hso : s.socket_open with _ | _ <;>
      rcases hrn : s.running_flag with _ | _ <;>
      simp [handle_heartbeat, hso, hrn] <;>
      exact absurd ⟨hso, hrn⟩ hno
  · intro hopen hrun
    simp [handle_heartbeat, setup_heartbeat_timer, head_zero, hopen, hrun]

/-- Witness for C9 at a concrete live session. -/
theorem heartbeat_fire_behaviour_witness :
    sessLive.socket_open = true ∧ sessLive.running_flag = true
    ∧ handle_heartbeat hooksAll sessLive none =
        ({ sessLive with send_head := head_zero },
         [Action.async_write_head ⟨0, 0⟩ Cont.handle_send_hb,
          Action.timer_wait 15 Cont.handle_heartbeat]) :=
  ⟨rfl, rfl, (heartbeat_fire_behaviour hooksAll sessLive).2 rfl rfl⟩

/-- Claim C10 — a heartbeat timer completion carrying a non-zero error
code, with the socket open and the running flag true, ends the heartbeat
chain silently: the session state is unchanged (in particular the running
flag stays true) and no action is performed — no ping write, no timer
re-arm, no user callback and no failure-hook invocation. -/
theorem heartbeat_timer_error_silent (hooks : Hooks) (s : sub_session) (msg : String)
    (hopen : s.socket_open = true) (hrun : s.running_flag = true) :
    handle_heartbeat hooks s (some msg) = (s, []) := by
  simp [handle_heartbeat, hopen, hrun]

/-- Witness for C10 at a concrete live session and a cancelled-timer error. -/
theorem heartbeat_timer_error_silent_witness :
    sessLive.socket_open = true ∧ sessLive.running_flag = true
    ∧ handle_heartbeat hooksAll sessLive (some "operation canceled") = (sessLive, []) :=
  ⟨rfl, rfl, heartbeat_timer_error_silent hooksAll sessLive "operation canceled" rfl rfl⟩

/-- Claim C3 — when a session is already registered for an
(endpoint, topic) pair, a second subscribe for the same pair fails
synchronously by throwing (`error_code::UNKNOWN`, "Sub topic already
existed!" — the failure the spec calls `AlreadySubscribed`): no registry
mutation happens and `start()` is never called, and the registry still
holds exactly one session for that pair. -/
theorem duplicate_subscribe_rejected (reg : endpoint_map_t) (ep : endpoint_t)
    (t : String) (sOld sNew : SessionRef) (h : WFreg reg)
    (hpres : lookupTopic reg ep t = some sOld) :
    sub_impl reg ep t sNew =
      Except.error ⟨error_code.UNKNOWN, "Sub topic already existed!"⟩
    ∧ countPair reg ep t = 1 := by
  cases hb : lookupA reg ep with
  | none =>
    unfold lookupTopic at hpres
    rw [hb] at hpres
    exact Option.noConfusion hpres
  | some b =>
    have ht : lookupA b t = some sOld := by
      unfold lookupTopic at hpres
      rw [hb] at hpres
      exact hpres
    constructor
    · rw [sub_impl_lookup_some hb]
      exact sub_impl_in_bucket_found ht
    · unfold countPair
      rw [hb]
      exact countP_key_eq_one (h.2 _ (lookupA_mem hb)).1 ht

/-- Witness for C3 at the concrete registry `regW`. -/
theorem duplicate_subscribe_rejected_witness :
    WFreg regW ∧ lookupTopic regW 1 "alpha" = some srefW
    ∧ sub_impl regW 1 "alpha" ⟨1, "alpha", 99⟩ =
        Except.error ⟨error_code.UNKNOWN, "Sub topic already existed!"⟩ :=
  ⟨by decide, by decide,
    (duplicate_subscribe_rejected regW 1 "alpha" srefW ⟨1, "alpha", 99⟩
      (by decide) (by decide)).1⟩

/-- Claim C8 — `sub_manager::remove` erases exactly the session's
(endpoint, topic) entry when present and is a no-op when absent (so it is
idempotent); other topics of the same endpoint and other endpoints are
untouched; and the endpoint bucket disappears exactly when every entry of
the bucket was keyed by the removed topic (i.e. its topic map became
empty). -/
theorem remove_registry_correct (reg : endpoint_map_t) (s : SessionRef)
    (h : WFreg reg) :
    lookupTopic (remove reg s) s.endpoint s.topic = none
    ∧ (lookupTopic reg s.endpoint s.topic = none → remove reg s = reg)
    ∧ remove (remove reg s) s = remove reg s
    ∧ (∀ t, t ≠ s.topic →
        lookupTopic (remove reg s) s.endpoint t = lookupTopic reg s.endpoint t)
    ∧ (∀ ep, ep ≠ s.endpoint → lookupA (remove reg s) ep = lookupA reg ep)
    ∧ (∀ b, lookupA reg s.endpoint = some b →
        (lookupA (remove reg s) s.endpoint = none ↔ ∀ p ∈ b, p.1 = s.topic)) :=
  ⟨lookupTopic_remove_self reg s h,
   remove_of_absent h,
   remove_idem h,
   fun t ht => lookupTopic_remove_other reg s t h ht,
   fun ep hep => lookupA_remove_other reg s ep hep,
   fun _ hb => remove_endpoint_gone_iff h hb⟩

/-- Witness for C8 at the concrete registry `regW`: removing `srefW` twice
equals removing it once, the sibling topic survives, and removing the only
topic of endpoint 2 erases that endpoint bucket. -/
theorem remove_registry_correct_witness :
    WFreg regW
    ∧ remove (remove regW srefW) srefW = remove regW srefW
    ∧ lookupTopic (remove regW srefW) 1 "beta" = lookupTopic regW 1 "beta"
    ∧ lookupA (remove regW ⟨2, "alpha", 20⟩) 2 = none :=
  ⟨by decide,
   (remove_registry_correct regW srefW (by decide)).2.2.1,
   (remove_registry_correct regW srefW (by decide)).2.2.2.1 "beta" (by decide),
   ((remove_registry_correct regW ⟨2, "alpha", 20⟩ (by decide)).2.2.2.2.2
      [("alpha", ⟨2, "alpha", 20⟩)] (by decide)).mpr (by decide)⟩

/-- Claim C7 — a handshake reply whose header has `resultCode ≠ OK` and
`length > 0`, with body `B`: the session reads `B`, deserializes it via the
configured hook `d`, invokes the user error callback with exactly `d B`,
and invokes the process-wide failure hook — which, as installed by
`sub_manager`, removes the session's (endpoint, topic) entry from the
registry. -/
theorem handshake_rejected_error_path (hooks : Hooks) (s : sub_session)
    (h : head_t) (body : List Nat) (d : List Nat → exception)
    (hopen : s.socket_open = true) (hrun : s.running_flag = true)
    (herr : s.has_error = true) (hhook : hooks.on_error_set = true)
    (hdeser : hooks.deserialize = some d)
    (hlen : 0 < h.len) (hcode : h.code ≠ result_code_OK) :
    (handshake_reply hooks s h body).2 =
      [Action.async_read_body h.len Cont.handle_response_sub_body,
       Action.call_error (d body), Action.invoke_on_error_hook]
    ∧ (∀ (reg : endpoint_map_t) (sref : SessionRef), WFreg reg →
        lookupTopic (manager_on_error_hook reg sref) sref.endpoint sref.topic = none) := by
  constructor
  · obtain ⟨hl, hc⟩ := h
    simp only at hlen hcode
    simp [handshake_reply, handle_response_sub_head, handle_response_sub_body,
      on_error_deser, on_error_with, hdeser, hopen, hrun, herr, hhook, hlen, hcode]
  · intro reg sref hw
    exact lookupTopic_remove_self reg sref hw

/-- Witness for C7 at a concrete rejected handshake with a 3-byte body. -/
theorem handshake_rejected_error_path_witness :
    sessLive.socket_open = true ∧ sessLive.running_flag = true
    ∧ sessLive.has_error = true ∧ hooksAll.on_error_set = true
    ∧ hooksAll.deserialize = some dWitness
    ∧ 0 < (3 : Nat) ∧ (1 : Nat) ≠ result_code_OK
    ∧ (handshake_reply hooksAll sessLive ⟨3, 1⟩ [5, 6, 7]).2 =
        [Action.async_read_body 3 Cont.handle_response_sub_body,
         Action.call_error (dWitness [5, 6, 7]), Action.invoke_on_error_hook] :=
  ⟨rfl, rfl, rfl, rfl, rfl, by decide, by decide,
    (handshake_rejected_error_path hooksAll sessLive ⟨3, 1⟩ [5, 6, 7] dWitness
      rfl rfl rfl rfl rfl (by decide) (by decide)).1⟩

/-- Claim C4 (amended) — every read or write failure reported to a
completion handler of a live session enters the uniform error path: the
session state is unchanged and the handler performs exactly the error-path
actions — the user error callback (when supplied) with an exception of
kind `BADCONNECTION` carrying the underlying error text, then the
process-wide failure hook (when installed), which removes the session
from the registry. A connect failure, in contrast, runs the failure
continuation registered by `start()`, which merely calls `stop()`: no
callback, no hook, no removal. -/
theorem transport_failure_error_path (hooks : Hooks) (s : sub_session) (msg : String)
    (hopen : s.socket_open = true) (hrun : s.running_flag = true) :
    handle_request_sub hooks s (some msg)
        = (s, on_error_with hooks s ⟨error_code.BADCONNECTION, msg⟩)
    ∧ handle_response_sub_head hooks s (some msg)
        = (s, on_error_with hooks s ⟨error_code.BADCONNECTION, msg⟩)
    ∧ handle_response_sub_body hooks s (some msg)
        = (s, on_error_with hooks s ⟨error_code.BADCONNECTION, msg⟩)
    ∧ handle_sub_head hooks s (some msg)
        = (s, on_error_with hooks s ⟨error_code.BADCONNECTION, msg⟩)
    ∧ handle_sub_body hooks s (some msg)
        = (s, on_error_with hooks s ⟨error_code.BADCONNECTION, msg⟩)
    ∧ handle_send_hb hooks s (some msg)
        = (s, on_error_with hooks s ⟨error_code.BADCONNECTION, msg⟩)
    ∧ (s.has_error = true → hooks.on_error_set = true →
        on_error_with hooks s ⟨error_code.BADCONNECTION, msg⟩ =
          [Action.call_error ⟨error_code.BADCONNECTION, msg⟩,
           Action.invoke_on_error_hook])
    ∧ start_on_connect_failed s = ({ s with running_flag := false }, [])
    ∧ (∀ (reg : endpoint_map_t) (sref : SessionRef), WFreg reg →
        lookupTopic (manager_on_error_hook reg sref) sref.endpoint sref.topic = none) := by
  refine ⟨?_, ?_, ?_, ?_, ?_, ?_, ?_, ?_, ?_⟩
  · simp [handle_request_sub, hopen, hrun]
  · simp [handle_response_sub_head, hopen, hrun]
  · simp [handle_response_sub_body, hopen, hrun]
  · simp [handle_sub_head, hopen, hrun]
  · simp [handle_sub_body, hopen, hrun]
  · simp [handle_send_hb, hopen, hrun]
  · intro he hh
    simp [on_error_with, he, hh]
  · rfl
  · intro reg sref hw
    exact lookupTopic_remove_self reg sref hw

/-- Witness for the amended C4 at a concrete read failure. -/
theorem transport_failure_error_path_witness :
    sessLive.socket_open = true ∧ sessLive.running_flag = true
    ∧ handle_sub_head hooksAll sessLive (some "Connection reset by peer")
        = (sessLive,
           on_error_with hooksAll sessLive
             ⟨error_code.BADCONNECTION, "Connection reset by peer"⟩) :=
  ⟨rfl, rfl,
    (transport_failure_error_path hooksAll sessLive "Connection reset by peer"
      rfl rfl).2.2.2.1⟩

/-- Counterexample to claim C4 as stated — a connect failure does not go
through the BadConnection error path: the failure continuation that
`start()` registers performs no action at all (no `BADCONNECTION` error
callback, no failure-hook invocation, hence no registry removal); it only
sets the running flag to false. -/
theorem connect_failure_bypasses_error_path :
    (start_on_connect_failed sessLive).2 = []
    ∧ Action.call_error ⟨error_code.BADCONNECTION, "Connection refused"⟩
        ∉ (start_on_connect_failed sessLive).2
    ∧ Action.invoke_on_error_hook ∉ (start_on_connect_failed sessLive).2
    ∧ (start_on_connect_failed sessLive).1 = stop sessLive := by
  refine ⟨rfl, ?_, ?_, rfl⟩ <;> simp [start_on_connect_failed]

/-- Claim C5 (amended) — the error path does not transition the session to
Stopped: after a failed completion runs `on_error`, the session state is
unchanged, so the running flag keeps its prior value (true) rather than
becoming false; the erroring chain itself schedules no further read, write
or timer wait (its actions are only callbacks and the failure hook), but
the session is not stopped. -/
theorem error_path_keeps_running (hooks : Hooks) (s : sub_session) (msg : String)
    (hopen : s.socket_open = true) (hrun : s.running_flag = true) :
    (handle_request_sub hooks s (some msg)).1 = s
    ∧ (handle_response_sub_head hooks s (some msg)).1 = s
    ∧ (handle_response_sub_body hooks s (some msg)).1 = s
    ∧ (handle_sub_head hooks s (some msg)).1 = s
    ∧ (handle_sub_body hooks s (some msg)).1 = s
    ∧ (handle_send_hb hooks s (some msg)).1 = s
    ∧ (handle_sub_head hooks s (some msg)).1.running_flag = true
    ∧ (∀ a ∈ (handle_request_sub hooks s (some msg)).2, is_io_action a = false)
    ∧ (∀ a ∈ (handle_response_sub_head hooks s (some msg)).2, is_io_action a = false)
    ∧ (∀ a ∈ (handle_response_sub_body hooks s (some msg)).2, is_io_action a = false)
    ∧ (∀ a ∈ (handle_sub_head hooks s (some msg)).2, is_io_action a = false)
    ∧ (∀ a ∈ (handle_sub_body hooks s (some msg)).2, is_io_action a = false)
    ∧ (∀ a ∈ (handle_send_hb hooks s (some msg)).2, is_io_action a = false) := by
  have e1 : handle_request_sub hooks s (some msg)
      = (s, on_error_with hooks s ⟨error_code.BADCONNECTION, msg⟩) := by
    simp [handle_request_sub, hopen, hrun]
  have e2 : handle_response_sub_head hooks s (some msg)
      = (s, on_error_with hooks s ⟨error_code.BADCONNECTION, msg⟩) := by
    simp [handle_response_sub_head, hopen, hrun]
  have e3 : handle_response_sub_body hooks s (some msg)
      = (s, on_error_with hooks s ⟨error_code.BADCONNECTION, msg⟩) := by
    simp [handle_response_sub_body, hopen, hrun]
  have e4 : handle_sub_head hooks s (some msg)
      = (s, on_error_with hooks s ⟨error_code.BADCONNECTION, msg⟩) := by
    simp [handle_sub_head, hopen, hrun]
  have e5 : handle_sub_body hooks s (some msg)
      = (s, on_error_with hooks s ⟨error_code.BADCONNECTION, msg⟩) := by
    simp [handle_sub_body, hopen, hrun]
  have e6 : handle_send_hb hooks s (some msg)
      = (s, on_error_with hooks s ⟨error_code.BADCONNECTION, msg⟩) := by
    simp [handle_send_hb, hopen, hrun]
  refine ⟨?_, ?_, ?_, ?_, ?_, ?_, ?_, ?_, ?_, ?_, ?_, ?_, ?_⟩
  · rw [e1]
  · rw [e2]
  · rw [e3]
  · rw [e4]
  · rw [e5]
  · rw [e6]
  · rw [e4]
    exact hrun
  · rw [e1]
    exact on_error_with_no_io hooks s _
  · rw [e2]
    exact on_error_with_no_io hooks s _
  · rw [e3]
    exact on_error_with_no_io hooks s _
  · rw [e4]
    exact on_error_with_no_io hooks s _
  · rw [e5]
    exact on_error_with_no_io hooks s _
  · rw [e6]
    exact on_error_with_no_io hooks s _

/-- Witness for the amended C5 at a concrete read failure. -/
theorem error_path_keeps_running_witness :
    sessLive.socket_open = true ∧ sessLive.running_flag = true
    ∧ ((handle_sub_head hooksAll sessLive
        (some "Connection reset by peer")).1).running_flag = true :=
  ⟨rfl, rfl,
    (error_path_keeps_running hooksAll sessLive "Connection reset by peer"
      rfl rfl).2.2.2.2.2.2.1⟩

/-- Counterexample to claim C5 as stated — after the error path runs for a
live session, the running flag is still true (not false), and the session
does issue further timer waits and writes: the next heartbeat completion on
the unchanged state still writes a ping and re-arms the timer. -/
theorem error_path_not_stopped :
    ((handle_sub_head hooksAll sessLive
        (some "Connection reset by peer")).1).running_flag = true
    ∧ (handle_heartbeat hooksAll
        (handle_sub_head hooksAll sessLive (some "Connection reset by peer")).1
        none).2 =
      [Action.async_write_head ⟨0, 0⟩ Cont.handle_send_hb,
       Action.timer_wait 15 Cont.handle_heartbeat] :=
  ⟨rfl, rfl⟩

end RestRpc
